import Mathlib

/-!
Shallow embedding of `src/Main.py` (class `LinkedInMCPServer`): a tool server
exposing LinkedIn job/company search operations backed by a JSON REST API.
The outbound HTTP fetch is an external collaborator; each operation is
modelled as a pure function of its argument bag and the fetched payload.
-/

namespace LinkedInMCP

open scoped List

/-- Module-level constant `LINKEDIN_API_BASE` from `Main.py`. -/
def LINKEDIN_API_BASE : String := "https://api.linkedin.com/v2"

/-- The nested `companyDetails` object of a raw job item; its `company` key may be absent. -/
structure CompanyDetails where
  company : Option String
  deriving DecidableEq

/-- One raw JSON job item as consumed by `_search_jobs` and `_analyze_job_market`:
every key may be absent. `listedAt` is an epoch-milliseconds timestamp. -/
structure RawJob where
  title : Option String
  companyDetails : Option CompanyDetails
  formattedLocation : Option String
  jobPostingId : Option String
  listedAt : Option Nat
  seniorityLevel : Option String
  deriving DecidableEq

/-- A raw `/jobSearch` response payload: when the `elements` key is absent,
`data.get("elements", [])` in the source yields the empty list. -/
structure Payload where
  elements : Option (List RawJob)

/-- Argument bag of the `search_jobs` tool; `keywords` is required, every other
field is read with `args.get` and a default. -/
structure SearchJobsArgs where
  keywords : String
  location : Option String
  experience_level : Option String
  posted_within_days : Option Nat
  limit : Option Nat

/-- Argument bag of the `analyze_job_market` tool. -/
structure AnalyzeArgs where
  role : String
  location : Option String

/-- Method `_map_experience_level`: a dict lookup returning the empty string
for any key outside the mapping. -/
def map_experience_level (level : String) : String :=
  if level = "entry" then "1,2"
  else if level = "associate" then "3"
  else if level = "mid-senior" then "4"
  else if level = "director" then "5"
  else if level = "executive" then "6"
  else ""

/-- Days-since-epoch to (year, month, day) in the proleptic Gregorian calendar,
the standard civil-from-days computation; models `datetime.fromtimestamp`.
The source renders in local time; we model UTC, a fixed-offset detail no
property below depends on. -/
def civilFromDays (z : Nat) : Nat × Nat × Nat :=
  let z := z + 719468
  let era := z / 146097
  let doe := z % 146097
  let yoe := (doe - doe / 1460 + doe / 36524 - doe / 146096) / 365
  let y := yoe + era * 400
  let doy := doe - (365 * yoe + yoe / 4 - yoe / 100)
  let mp := (5 * doy + 2) / 153
  let d := doy - (153 * mp + 2) / 5 + 1
  let m := if mp < 10 then mp + 3 else mp - 9
  (if m ≤ 2 then y + 1 else y, m, d)

/-- Zero-pad a natural number to the given width, as `strftime` pads date components. -/
def padNum (width n : Nat) : String :=
  let s := toString n
  if s.length < width then String.mk (List.replicate (width - s.length) '0') ++ s else s

/-- Render epoch seconds in the `strftime` layout `Y-m-d` used by the source. -/
def formatYMD (secs : Nat) : String :=
  let c := civilFromDays (secs / 86400)
  padNum 4 c.1 ++ "-" ++ padNum 2 c.2.1 ++ "-" ++ padNum 2 c.2.2

/-- Method `_format_date`: a missing or zero (falsy) timestamp renders as
`"Unknown"`; otherwise the millisecond timestamp is divided by 1000 and
formatted as a date. -/
def format_date : Option Nat → String
  | none => "Unknown"
  | some 0 => "Unknown"
  | some t => formatYMD (t / 1000)

/-- Title lookup in `_search_jobs`: `job.get` of `title` with default `Unknown Title`. -/
def entry_title (job : RawJob) : String := job.title.getD "Unknown Title"

/-- Company lookup in `_search_jobs`: `job.get` of `companyDetails` (default empty
dict) then `.get` of `company` with default `Unknown Company`. -/
def entry_company (job : RawJob) : String :=
  match job.companyDetails with
  | none => "Unknown Company"
  | some cd => cd.company.getD "Unknown Company"

/-- Location lookup in `_search_jobs` with default `Location not specified`. -/
def entry_location (job : RawJob) : String :=
  job.formattedLocation.getD "Location not specified"

/-- Job id lookup in `_search_jobs` with default empty string. -/
def entry_job_id (job : RawJob) : String := job.jobPostingId.getD ""

/-- One numbered entry of the `_search_jobs` report, entry index `i` counted
from 1; each parenthesised chunk is one `result +=` statement of the source. -/
def search_jobs_entry (i : Nat) (job : RawJob) : String :=
  (toString i ++ ". " ++ entry_title job ++ "\n")
  ++ ("   Company: " ++ entry_company job ++ "\n")
  ++ ("   Location: " ++ entry_location job ++ "\n")
  ++ ("   Job ID: " ++ entry_job_id job ++ "\n")
  ++ ("   Posted: " ++ format_date job.listedAt ++ "\n")
  ++ ("   URL: https://www.linkedin.com/jobs/view/" ++ entry_job_id job ++ "\n\n")

/-- The `for i, job in enumerate(jobs, 1)` loop of `_search_jobs`: one entry per
raw item, numbered from 1. -/
def search_jobs_entries (jobs : List RawJob) : List String :=
  jobs.enum.map fun p => search_jobs_entry (p.1 + 1) p.2

/-- Header of the `_search_jobs` report; the two `if` tests model Python
truthiness of the (defaulted-to-empty) strings. -/
def search_jobs_header (keywords location experience_level : String)
    (posted_within_days n : Nat) : String :=
  ("Found " ++ toString n ++ " jobs for '" ++ keywords ++ "'")
  ++ (if location = "" then "" else " in " ++ location)
  ++ (if experience_level = "" then "" else " (" ++ experience_level ++ " level)")
  ++ (" posted within last " ++ toString posted_within_days ++ " days:\n\n")

/-- The query-parameter record `params` built by `_search_jobs` and passed to
`_make_request` for the `/jobSearch` endpoint. -/
structure JobSearchParams where
  keywords : String
  location : String
  f_E : String
  f_TPR : String
  count : Nat

/-- Construction of `params` in `_search_jobs`: note `count` is the raw
(defaulted) `limit` argument, with no clamping. -/
def search_jobs_params (args : SearchJobsArgs) : JobSearchParams :=
  { keywords := args.keywords
    location := args.location.getD ""
    f_E := map_experience_level (args.experience_level.getD "")
    f_TPR := "r" ++ toString (args.posted_within_days.getD 30 * 86400)
    count := args.limit.getD 10 }

/-- Method `_search_jobs`, given the fetched payload: empty item list yields the
no-results message, otherwise header plus one numbered entry per item.  The
`limit` argument does not truncate `jobs`; it only feeds `search_jobs_params`. -/
def search_jobs (args : SearchJobsArgs) (data : Payload) : String :=
  let keywords := args.keywords
  let location := args.location.getD ""
  let experience_level := args.experience_level.getD ""
  let posted_within_days := args.posted_within_days.getD 30
  let jobs := data.elements.getD []
  if jobs.isEmpty then
    "No jobs found for '" ++ keywords ++ "' in "
      ++ (if location = "" then "any location" else location)
  else
    search_jobs_header keywords location experience_level posted_within_days jobs.length
      ++ String.join (search_jobs_entries jobs)

/-- Outcome of running one tool operation: a returned result string, or a
raised exception carrying its message. -/
inductive ToolOutcome where
  | ok (text : String)
  | exn (msg : String)

/-- One `types.TextContent` response block. -/
structure TextContent where
  type : String
  text : String
  deriving DecidableEq

/-- The `try` block result wrapping of `handle_call_tool`: a successful result
becomes one text block, a raised exception becomes one `Error:` text block. -/
def wrapOutcome : ToolOutcome → List TextContent
  | .ok r => [⟨"text", r⟩]
  | .exn e => [⟨"text", "Error: " ++ e⟩]

/-- The tool names registered in `handle_list_tools` and dispatched on in
`handle_call_tool`. -/
def toolNames : List String :=
  ["search_jobs", "get_job_details", "search_companies", "get_company_details",
   "search_profiles", "get_company_jobs", "analyze_job_market"]

/-- The dispatcher `handle_call_tool`: the `if name == ...` chain selects an
operation (whose outcome `run` supplies); an unmatched name raises
`ValueError` with message `Unknown tool: name`, caught by the same handler. -/
def handle_call_tool (name : String) (run : String → ToolOutcome) : List TextContent :=
  if name = "search_jobs" then wrapOutcome (run name)
  else if name = "get_job_details" then wrapOutcome (run name)
  else if name = "search_companies" then wrapOutcome (run name)
  else if name = "get_company_details" then wrapOutcome (run name)
  else if name = "search_profiles" then wrapOutcome (run name)
  else if name = "get_company_jobs" then wrapOutcome (run name)
  else if name = "analyze_job_market" then wrapOutcome (run name)
  else [⟨"text", "Error: " ++ ("Unknown tool: " ++ name)⟩]

/-- One `counts[k] = counts.get(k, 0) + 1` step on an insertion-ordered dict,
modelled as an association list: an existing key is bumped in place, a new key
is appended at the end (Python dict insertion order). -/
def countIncr (m : List (String × Nat)) (k : String) : List (String × Nat) :=
  match m with
  | [] => [(k, 1)]
  | (k', c) :: rest => if k' = k then (k', c + 1) :: rest else (k', c) :: countIncr rest k

/-- The counting loop of `_analyze_job_market` for one of its three dicts. -/
def countBy (jobs : List RawJob) (key : RawJob → String) : List (String × Nat) :=
  jobs.foldl (fun m j => countIncr m (key j)) []

/-- Key function for the `experience_levels` dict: `seniorityLevel` with default `Unknown`. -/
def seniorityKey (job : RawJob) : String := job.seniorityLevel.getD "Unknown"

/-- Key function for the `companies` dict in `_analyze_job_market`: nested
company lookup with default `Unknown` (not `Unknown Company` as in `_search_jobs`). -/
def companyKey (job : RawJob) : String :=
  match job.companyDetails with
  | none => "Unknown"
  | some cd => cd.company.getD "Unknown"

/-- Key function for the `locations` dict: `formattedLocation` with default `Unknown`. -/
def locationKey (job : RawJob) : String := job.formattedLocation.getD "Unknown"

/-- Python `sorted(items, key at index 1, reverse=True)`: a stable sort,
descending on the count component.  `List.mergeSort` is stable and agrees with
CPython's stable sort on this total preorder. -/
def sortByCountDesc (m : List (String × Nat)) : List (String × Nat) :=
  m.mergeSort fun a b => decide (b.2 ≤ a.2)

/-- Sum of the values of a count mapping. -/
def sumCounts (m : List (String × Nat)) : Nat := (m.map Prod.snd).sum

/-- The percentage annotation of the experience-level lines, Python
`count/total*100` formatted with one decimal digit: modelled exactly over the
rationals with round-half-to-even on the tenths digit (the source divides IEEE
doubles first; no property below depends on the digits). -/
def formatPct (count total : Nat) : String :=
  let num := count * 1000
  let q := num / total
  let r := num % total
  let tenths :=
    if 2 * r < total then q
    else if total < 2 * r then q + 1
    else if q % 2 = 0 then q else q + 1
  toString (tenths / 10) ++ "." ++ toString (tenths % 10)

/-- The `Experience Level Distribution` lines of `_analyze_job_market`: the
sorted dict is rendered in full (no truncation), each line carrying the
percentage annotation. -/
def experience_lines (jobs : List RawJob) : List String :=
  (sortByCountDesc (countBy jobs seniorityKey)).map fun p =>
    "  - " ++ p.1 ++ ": " ++ toString p.2 ++ " (" ++ formatPct p.2 jobs.length ++ "%)\n"

/-- The `Top Hiring Companies` lines: sorted, truncated to the first 10. -/
def company_lines (jobs : List RawJob) : List String :=
  ((sortByCountDesc (countBy jobs companyKey)).take 10).map fun p =>
    "  - " ++ p.1 ++ ": " ++ toString p.2 ++ " openings\n"

/-- The `Top Locations` lines: sorted, truncated to the first 10. -/
def location_lines (jobs : List RawJob) : List String :=
  ((sortByCountDesc (countBy jobs locationKey)).take 10).map fun p =>
    "  - " ++ p.1 ++ ": " ++ toString p.2 ++ " openings\n"

/-- Header of the `_analyze_job_market` report (role plus optional location). -/
def analyze_header (args : AnalyzeArgs) : String :=
  ("Job Market Analysis for '" ++ args.role ++ "'")
  ++ (if args.location.getD "" = "" then "" else " in " ++ args.location.getD "")
  ++ ":\n\n"

/-- Method `_analyze_job_market`, given the fetched payload: an empty item list
short-circuits to the `No data available` message; otherwise the report is the
header, the total, and the three ranked sections. -/
def analyze_job_market (args : AnalyzeArgs) (data : Payload) : String :=
  let jobs := data.elements.getD []
  if jobs.isEmpty then
    "No data available for '" ++ args.role ++ "' analysis"
  else
    analyze_header args
    ++ ("Total Job Postings: " ++ toString jobs.length ++ "\n\n")
    ++ ("Experience Level Distribution:\n" ++ String.join (experience_lines jobs))
    ++ ("\nTop Hiring Companies:\n" ++ String.join (company_lines jobs))
    ++ ("\nTop Locations:\n" ++ String.join (location_lines jobs))

/-- A raw item with every key absent. -/
def emptyRawJob : RawJob := ⟨none, none, none, none, none, none⟩

/-- Concrete `search_jobs` argument bag requesting a limit of 150. -/
def argsC1 : SearchJobsArgs := ⟨"ai", none, none, none, some 150⟩

/-- A payload item list of 101 identical raw items. -/
def jobs101 : List RawJob := List.replicate 101 emptyRawJob

/-- Concrete `search_jobs` argument bag with the limit argument absent. -/
def argsNoLimit : SearchJobsArgs := ⟨"ai", none, none, none, none⟩

/-- A run function whose every operation returns the empty result. -/
def runNone : String → ToolOutcome := fun _ => ToolOutcome.ok ""

/-- A raw item whose company resolves to `A`. -/
def jobA : RawJob := ⟨none, some ⟨some "A"⟩, none, none, none, none⟩

/-- A raw item whose company resolves to `B`. -/
def jobB : RawJob := ⟨none, some ⟨some "B"⟩, none, none, none, none⟩

/-- Item list in which company `A` occurs twice and `B` once. -/
def jobsRank : List RawJob := [jobA, jobA, jobB]

/-- Item list carrying eleven pairwise distinct seniority levels. -/
def jobs11 : List RawJob :=
  [⟨none, none, none, none, none, some "L1"⟩,
   ⟨none, none, none, none, none, some "L2"⟩,
   ⟨none, none, none, none, none, some "L3"⟩,
   ⟨none, none, none, none, none, some "L4"⟩,
   ⟨none, none, none, none, none, some "L5"⟩,
   ⟨none, none, none, none, none, some "L6"⟩,
   ⟨none, none, none, none, none, some "L7"⟩,
   ⟨none, none, none, none, none, some "L8"⟩,
   ⟨none, none, none, none, none, some "L9"⟩,
   ⟨none, none, none, none, none, some "L10"⟩,
   ⟨none, none, none, none, none, some "L11"⟩]

/-- Rendering one entry per raw item: the entry list has the length of the item list. -/
lemma length_search_jobs_entries (jobs : List RawJob) :
    (search_jobs_entries jobs).length = jobs.length := by
  simp [search_jobs_entries]

/-- The experience-level section renders one line per distinct key, with no truncation. -/
lemma length_experience_lines (jobs : List RawJob) :
    (experience_lines jobs).length = (countBy jobs seniorityKey).length := by
  simp [experience_lines, sortByCountDesc]

/-- Wrapping an operation outcome always yields exactly one text block. -/
lemma wrapOutcome_length (o : ToolOutcome) : (wrapOutcome o).length = 1 := by
  cases o <;> rfl

/-- Two distinct members of a list occur in one relative order or the other. -/
lemma pair_sublist_of_mem {α : Type} {a b : α} {l : List α} (ha : a ∈ l) (hb : b ∈ l)
    (hne : a ≠ b) : [a, b] <+ l ∨ [b, a] <+ l := by
  induction l with
  | nil => cases ha
  | cons x xs ih =>
    rcases List.mem_cons.mp ha with rfl | ha'
    · have hb' : b ∈ xs := by
        rcases List.mem_cons.mp hb with rfl | h
        · exact absurd rfl hne
        · exact h
      exact Or.inl ((List.singleton_sublist.mpr hb').cons₂ a)
    · rcases List.mem_cons.mp hb with rfl | hb'
      · exact Or.inr ((List.singleton_sublist.mpr ha').cons₂ b)
      · rcases ih ha' hb' with h | h
        · exact Or.inl (h.cons x)
        · exact Or.inr (h.cons x)

/-- The descending-count comparison is transitive. -/
lemma countDesc_trans (a b c : String × Nat) :
    decide (b.2 ≤ a.2) = true → decide (c.2 ≤ b.2) = true → decide (c.2 ≤ a.2) = true := by
  simp only [decide_eq_true_eq]
  omega

/-- The descending-count comparison is total. -/
lemma countDesc_total (a b : String × Nat) :
    (decide (b.2 ≤ a.2) || decide (a.2 ≤ b.2)) = true := by
  simp only [Bool.or_eq_true, decide_eq_true_eq]
  omega

/-- One counting step adds exactly one to the sum of the mapping's values. -/
lemma sumCounts_countIncr (m : List (String × Nat)) (k : String) :
    sumCounts (countIncr m k) = sumCounts m + 1 := by
  induction m with
  | nil => rfl
  | cons p rest ih =>
    obtain ⟨k', c⟩ := p
    by_cases h : k' = k
    · simp [countIncr, h, sumCounts]
      omega
    · simp [countIncr, h, sumCounts] at ih ⊢
      omega

/-- Folding the counting step over an item list adds the list length to the sum. -/
lemma sumCounts_countBy_go (l : List RawJob) (key : RawJob → String) :
    ∀ m, sumCounts (l.foldl (fun acc j => countIncr acc (key j)) m) = sumCounts m + l.length := by
  induction l with
  | nil => intro m; simp
  | cons j rest ih =>
    intro m
    simp only [List.foldl_cons, List.length_cons]
    rw [ih, sumCounts_countIncr]
    omega

/-- The values of any of the three count mappings always sum to the item count. -/
lemma sumCounts_countBy (jobs : List RawJob) (key : RawJob → String) :
    sumCounts (countBy jobs key) = jobs.length := by
  have h := sumCounts_countBy_go jobs key []
  simpa [countBy, sumCounts] using h

/-- Any input the experience-level mapping sends to a non-empty code is one of
the five recognised levels. -/
lemma map_experience_level_mem (s : String) (h : map_experience_level s ≠ "") :
    s ∈ ["entry", "associate", "mid-senior", "director", "executive"] := by
  by_cases h1 : s = "entry"
  · simp [h1]
  by_cases h2 : s = "associate"
  · simp [h2]
  by_cases h3 : s = "mid-senior"
  · simp [h3]
  by_cases h4 : s = "director"
  · simp [h4]
  by_cases h5 : s = "executive"
  · simp [h5]
  exact absurd (by simp [map_experience_level, h1, h2, h3, h4, h5]) h

/-- Claim C1, counterexample: with a requested limit of 150 the `count` request
parameter stays 150 (no clamp to 100), and a payload of 101 raw items renders
101 numbered entries, more than 100 — the limit never truncates the list. -/
theorem search_jobs_no_clamp_cex :
    (search_jobs_params argsC1).count = 150 ∧
    (search_jobs_entries jobs101).length = 101 ∧
    ¬ (search_jobs_entries jobs101).length ≤ 100 := by
  refine ⟨rfl, ?_, ?_⟩ <;> simp [length_search_jobs_entries, jobs101]

/-- Claim C1, amended: the result limit defaults to 10 when the argument is
absent and is passed unclamped as the request `count` parameter; the rendered
entry list is never truncated locally — it always has one entry per fetched
item, whatever the limit. -/
theorem search_jobs_limit_default (args : SearchJobsArgs) (jobs : List RawJob)
    (h : args.limit = none) :
    (search_jobs_params args).count = 10 ∧
    (search_jobs_entries jobs).length = jobs.length := by
  constructor
  · simp [search_jobs_params, h]
  · exact length_search_jobs_entries jobs

/-- Claim C1, witness: the amended statement at a concrete limit-free argument
bag and a one-item payload. -/
theorem search_jobs_limit_default_w :
    (search_jobs_params argsNoLimit).count = 10 ∧
    (search_jobs_entries [emptyRawJob]).length = [emptyRawJob].length :=
  search_jobs_limit_default argsNoLimit [emptyRawJob] rfl

/-- Claim C2: a tool name outside the registered list yields exactly the
single error block whose message embeds the literal tool name, and every call
— whatever outcome the selected operation has — produces exactly one text
block, so no exception escapes the dispatcher. -/
theorem handle_call_tool_contract (name : String) (run : String → ToolOutcome) :
    (name ∉ toolNames →
      handle_call_tool name run = [⟨"text", "Error: " ++ ("Unknown tool: " ++ name)⟩] ∧
      ∃ pre post, "Error: " ++ ("Unknown tool: " ++ name) = pre ++ name ++ post) ∧
    (handle_call_tool name run).length = 1 := by
  constructor
  · intro h
    simp only [toolNames, List.mem_cons, List.not_mem_nil, or_false, not_or] at h
    obtain ⟨h1, h2, h3, h4, h5, h6, h7⟩ := h
    refine ⟨by simp [handle_call_tool, h1, h2, h3, h4, h5, h6, h7],
      "Error: " ++ "Unknown tool: ", "", ?_⟩
    rw [String.append_empty, String.append_assoc]
  · unfold handle_call_tool
    repeat' split
    all_goals first
      | exact wrapOutcome_length _
      | rfl

/-- Claim C2, witness: the unknown name `bogus` produces the single error
block carrying it. -/
theorem handle_call_tool_contract_w :
    handle_call_tool "bogus" runNone = [⟨"text", "Error: " ++ ("Unknown tool: " ++ "bogus")⟩] ∧
    (handle_call_tool "bogus" runNone).length = 1 :=
  ⟨((handle_call_tool_contract "bogus" runNone).1 (by decide)).1,
   (handle_call_tool_contract "bogus" runNone).2⟩

/-- Claim C3: on a non-empty raw item list `search_jobs` renders exactly one
numbered entry per item, and each missing field is papered over by its
sentinel default (`Unknown Title`, `Unknown Company`, `Location not
specified`, the empty job id, `Unknown` posted date) instead of the item being
dropped. -/
theorem api_mode_no_drop (jobs : List RawJob) (_h : jobs ≠ []) :
    (search_jobs_entries jobs).length = jobs.length ∧
    ∀ j : RawJob,
      (j.title = none → entry_title j = "Unknown Title") ∧
      (j.companyDetails = none → entry_company j = "Unknown Company") ∧
      (∀ cd, j.companyDetails = some cd → cd.company = none →
        entry_company j = "Unknown Company") ∧
      (j.formattedLocation = none → entry_location j = "Location not specified") ∧
      (j.jobPostingId = none → entry_job_id j = "") ∧
      (j.listedAt = none → format_date j.listedAt = "Unknown") := by
  refine ⟨length_search_jobs_entries jobs, fun j => ⟨?_, ?_, ?_, ?_, ?_, ?_⟩⟩
  · intro ht; simp [entry_title, ht]
  · intro hc; simp [entry_company, hc]
  · intro cd hc hcc; simp [entry_company, hc, hcc]
  · intro hl; simp [entry_location, hl]
  · intro hi; simp [entry_job_id, hi]
  · intro hd; rw [hd]; rfl

/-- Claim C3, witness: the singleton list of the all-fields-missing item
renders one entry, with every sentinel default substituted. -/
theorem api_mode_no_drop_w :
    (search_jobs_entries [emptyRawJob]).length = [emptyRawJob].length ∧
    entry_title emptyRawJob = "Unknown Title" ∧
    entry_company emptyRawJob = "Unknown Company" ∧
    entry_location emptyRawJob = "Location not specified" ∧
    entry_job_id emptyRawJob = "" ∧
    format_date emptyRawJob.listedAt = "Unknown" := by
  have h := api_mode_no_drop [emptyRawJob] (by simp)
  exact ⟨h.1, (h.2 emptyRawJob).1 rfl, (h.2 emptyRawJob).2.1 rfl,
    (h.2 emptyRawJob).2.2.2.1 rfl, (h.2 emptyRawJob).2.2.2.2.1 rfl,
    (h.2 emptyRawJob).2.2.2.2.2 rfl⟩

/-- Claim C4, counterexample: on zero records `analyze_job_market` returns the
bare `No data available` message — it contains no `Total` line and not even
the digit zero, so no total of zero is reported (the `Top ...` sections are
indeed absent). -/
theorem analyze_zero_cex :
    analyze_job_market ⟨"AI", none⟩ ⟨some []⟩ = "No data available for 'AI' analysis" ∧
    ¬ ("Total".data <:+: (analyze_job_market ⟨"AI", none⟩ ⟨some []⟩).data) ∧
    '0' ∉ (analyze_job_market ⟨"AI", none⟩ ⟨some []⟩).data := by
  exact ⟨rfl, by decide, by decide⟩

/-- Claim C4, amended: zero records make `analyze_job_market` short-circuit to
the `No data available` message naming the role; no total line and no ranked
section is rendered. -/
theorem analyze_zero_message (args : AnalyzeArgs) (data : Payload)
    (h : data.elements.getD [] = []) :
    analyze_job_market args data = "No data available for '" ++ args.role ++ "' analysis" := by
  simp [analyze_job_market, h]

/-- Claim C4, witness: the amended statement at a payload missing the
`elements` list. -/
theorem analyze_zero_message_w :
    analyze_job_market ⟨"AI", none⟩ ⟨none⟩ = "No data available for 'AI' analysis" :=
  analyze_zero_message ⟨"AI", none⟩ ⟨none⟩ rfl

/-- Claim C5, counterexample: eleven records with pairwise distinct seniority
levels render eleven experience-distribution lines — that count mapping is not
truncated to its top 10 entries. -/
theorem analyze_top10_cex :
    (experience_lines jobs11).length = 11 ∧ ¬ (experience_lines jobs11).length ≤ 10 := by
  have h : (experience_lines jobs11).length = 11 := by
    rw [length_experience_lines]; decide
  exact ⟨h, by rw [h]; decide⟩

/-- Claim C5, amended: the company and location lists are truncated to at most
their top 10 entries, the experience-level distribution is rendered in full
(one line per distinct level, no truncation), and the percentage annotation
ends every experience line while company and location lines end in the
annotation-free `openings` form. -/
theorem analyze_sections (jobs : List RawJob) :
    (company_lines jobs).length ≤ 10 ∧
    (location_lines jobs).length ≤ 10 ∧
    (experience_lines jobs).length = (countBy jobs seniorityKey).length ∧
    (∀ l ∈ experience_lines jobs, "%)\n".data <:+ l.data) ∧
    (∀ l ∈ company_lines jobs, " openings\n".data <:+ l.data) ∧
    (∀ l ∈ location_lines jobs, " openings\n".data <:+ l.data) := by
  refine ⟨?_, ?_, length_experience_lines jobs, ?_, ?_, ?_⟩
  · simp [company_lines]
  · simp [location_lines]
  · intro l hl
    simp only [experience_lines, List.mem_map] at hl
    obtain ⟨p, hp, rfl⟩ := hl
    simp only [String.data_append]
    exact List.suffix_append _ _
  · intro l hl
    simp only [company_lines, List.mem_map] at hl
    obtain ⟨p, hp, rfl⟩ := hl
    simp only [String.data_append]
    exact List.suffix_append _ _
  · intro l hl
    simp only [location_lines, List.mem_map] at hl
    obtain ⟨p, hp, rfl⟩ := hl
    simp only [String.data_append]
    exact List.suffix_append _ _

/-- Claim C5, witness: the amended statement at the one-record list, whose
single experience line carries the percentage annotation. -/
theorem analyze_sections_w :
    (company_lines [emptyRawJob]).length ≤ 10 ∧
    "%)\n".data <:+ ("  - Unknown: 1 (100.0%)\n" : String).data := by
  refine ⟨(analyze_sections [emptyRawJob]).1, ?_⟩
  have hcb : countBy [emptyRawJob] seniorityKey = [("Unknown", 1)] := by decide
  have hmem : ("  - Unknown: 1 (100.0%)\n" : String) ∈ experience_lines [emptyRawJob] := by
    simp only [experience_lines, sortByCountDesc, hcb, List.mergeSort_singleton,
      List.map_cons, List.map_nil]
    exact List.mem_singleton.mpr (by decide)
  exact (analyze_sections [emptyRawJob]).2.2.2.1 _ hmem

/-- Claim C6: in any of the three count mappings, a key with strictly larger
count precedes one with smaller count in the sorted ranking, and keys with
equal counts keep their encounter order from the mapping (`List.mergeSort`
is stable, matching Python's stable `sorted`). -/
theorem market_ranking (jobs : List RawJob) (key : RawJob → String)
    (k1 k2 : String) (c1 c2 : Nat) (hk : k1 ≠ k2)
    (h1 : (k1, c1) ∈ countBy jobs key) (h2 : (k2, c2) ∈ countBy jobs key) :
    (c2 < c1 → [(k1, c1), (k2, c2)] <+ sortByCountDesc (countBy jobs key)) ∧
    (c1 = c2 → [(k1, c1), (k2, c2)] <+ countBy jobs key →
      [(k1, c1), (k2, c2)] <+ sortByCountDesc (countBy jobs key)) := by
  constructor
  · intro hlt
    have hm1 : (k1, c1) ∈ sortByCountDesc (countBy jobs key) := by
      simpa [sortByCountDesc] using h1
    have hm2 : (k2, c2) ∈ sortByCountDesc (countBy jobs key) := by
      simpa [sortByCountDesc] using h2
    have hne : ((k1, c1) : String × Nat) ≠ (k2, c2) := by
      intro h; exact hk (congrArg Prod.fst h)
    rcases pair_sublist_of_mem hm1 hm2 hne with h | h
    · exact h
    · exfalso
      have hs : (sortByCountDesc (countBy jobs key)).Pairwise
          (fun a b : String × Nat => decide (b.2 ≤ a.2) = true) :=
        List.sorted_mergeSort countDesc_trans countDesc_total (countBy jobs key)
      have hp := List.Pairwise.sublist h hs
      have := (List.pairwise_cons.mp hp).1 (k1, c1) (List.mem_singleton.mpr rfl)
      simp only [decide_eq_true_eq] at this
      omega
  · intro heq hsub
    have hpw : ([(k1, c1), (k2, c2)] : List (String × Nat)).Pairwise
        (fun a b : String × Nat => decide (b.2 ≤ a.2) = true) := by
      subst heq
      simp [List.pairwise_cons]
    exact List.sublist_mergeSort countDesc_trans countDesc_total hpw hsub

/-- Claim C6, witness: with company `A` counted twice and `B` once, `A`
precedes `B` in the sorted ranking. -/
theorem market_ranking_w :
    [(("A" : String), 2), ("B", 1)] <+ sortByCountDesc (countBy jobsRank companyKey) :=
  (market_ranking jobsRank companyKey "A" "B" 2 1 (by decide) (by decide) (by decide)).1
    (by decide)

/-- Claim C7: when every record carries a company field, the values of the
company count mapping sum to the record count, which is exactly the total the
summary reports in its `Total Job Postings` line. -/
theorem market_company_sum (args : AnalyzeArgs) (jobs : List RawJob)
    (hall : ∀ j ∈ jobs, ∃ cd c, j.companyDetails = some cd ∧ cd.company = some c) :
    sumCounts (countBy jobs companyKey) = jobs.length ∧
    (jobs ≠ [] → ∃ pre post,
      analyze_job_market args ⟨some jobs⟩ =
        pre ++ ("Total Job Postings: " ++ toString (sumCounts (countBy jobs companyKey))
          ++ "\n\n") ++ post) := by
  refine ⟨sumCounts_countBy jobs companyKey, ?_⟩
  intro hne
  rw [sumCounts_countBy]
  refine ⟨analyze_header args,
    ("Experience Level Distribution:\n" ++ String.join (experience_lines jobs))
      ++ ("\nTop Hiring Companies:\n" ++ String.join (company_lines jobs))
      ++ ("\nTop Locations:\n" ++ String.join (location_lines jobs)), ?_⟩
  have hie : jobs.isEmpty = false := by
    cases jobs with
    | nil => exact absurd rfl hne
    | cons a l => rfl
  simp [analyze_job_market, hie, String.append_assoc]

/-- Claim C7, witness: the sum invariant at the one-record list whose record
carries company `A`. -/
theorem market_company_sum_w :
    sumCounts (countBy [jobA] companyKey) = [jobA].length :=
  (market_company_sum ⟨"r", none⟩ [jobA] (by
    intro j hj
    simp only [List.mem_singleton] at hj
    subst hj
    exact ⟨⟨some "A"⟩, "A", rfl, rfl⟩)).1

/-- Claim C8, counterexample: no six pairwise distinct inputs are all mapped
to non-empty codes — the mapping recognises exactly the five levels, not
six. -/
theorem map_experience_level_not_six :
    ¬ ∃ l : List String, l.Nodup ∧ l.length = 6 ∧ ∀ s ∈ l, map_experience_level s ≠ "" := by
  rintro ⟨l, hnd, hlen, hall⟩
  have hsub : l ⊆ ["entry", "associate", "mid-senior", "director", "executive"] :=
    fun s hs => map_experience_level_mem s (hall s hs)
  have hle := (hnd.subperm hsub).length_le
  rw [hlen] at hle
  simp at hle

/-- Claim C8, amended: the experience-level mapper maps five levels to numeric
codes, the merged `entry` tier going to the comma-joined multi-code `1,2`, and
every unrecognized input returns the empty token without raising. -/
theorem map_experience_level_spec :
    map_experience_level "entry" = "1,2" ∧
    map_experience_level "associate" = "3" ∧
    map_experience_level "mid-senior" = "4" ∧
    map_experience_level "director" = "5" ∧
    map_experience_level "executive" = "6" ∧
    ∀ s : String, s ∉ ["entry", "associate", "mid-senior", "director", "executive"] →
      map_experience_level s = "" := by
  refine ⟨rfl, rfl, rfl, rfl, rfl, ?_⟩
  intro s hs
  simp only [List.mem_cons, List.not_mem_nil, or_false, not_or] at hs
  obtain ⟨h1, h2, h3, h4, h5⟩ := hs
  simp [map_experience_level, h1, h2, h3, h4, h5]

/-- Claim C8, witness: the unrecognized input `internship` maps to the empty
token. -/
theorem map_experience_level_spec_w :
    map_experience_level "internship" = "" :=
  map_experience_level_spec.2.2.2.2.2 "internship" (by decide)

/-- Claim C9, counterexample: on zero raw items the result text is the bare
no-results message; it contains neither the `/jobSearch` endpoint nor the API
base URL, so the attempted query URL is not exposed. -/
theorem search_jobs_empty_cex :
    search_jobs ⟨"AI Engineer", none, none, none, none⟩ ⟨some []⟩ =
      "No jobs found for 'AI Engineer' in any location" ∧
    ¬ ("/jobSearch".data <:+:
        ("No jobs found for 'AI Engineer' in any location" : String).data) ∧
    ¬ (LINKEDIN_API_BASE.data <:+:
        ("No jobs found for 'AI Engineer' in any location" : String).data) := by
  exact ⟨rfl, by decide, by decide⟩

/-- Claim C9, amended: zero raw items (including a payload missing the results
list) make `search_jobs` return the message that no jobs were found for the
keywords in the given location (or `any location`), without the attempted
URL or endpoint. -/
theorem search_jobs_empty_message (args : SearchJobsArgs) (data : Payload)
    (h : data.elements.getD [] = []) :
    search_jobs args data =
      "No jobs found for '" ++ args.keywords ++ "' in "
        ++ (if args.location.getD "" = "" then "any location" else args.location.getD "") := by
  simp [search_jobs, h]

/-- Claim C9, witness: the amended statement at a payload missing the
`elements` list. -/
theorem search_jobs_empty_message_w :
    search_jobs ⟨"AI", none, none, none, none⟩ ⟨none⟩ =
      "No jobs found for 'AI' in any location" :=
  search_jobs_empty_message ⟨"AI", none, none, none, none⟩ ⟨none⟩ rfl

/-- Claim C10: a raw item lacking a job id still gets its URL line, the fixed
view-URL prefix followed by the empty job-id default — the line is never
suppressed. -/
theorem url_line_always (i : Nat) (j : RawJob) (h : j.jobPostingId = none) :
    ∃ pre, search_jobs_entry i j =
      pre ++ ("   URL: https://www.linkedin.com/jobs/view/" ++ "" ++ "\n\n") := by
  refine ⟨(toString i ++ ". " ++ entry_title j ++ "\n")
    ++ ("   Company: " ++ entry_company j ++ "\n")
    ++ ("   Location: " ++ entry_location j ++ "\n")
    ++ ("   Job ID: " ++ entry_job_id j ++ "\n")
    ++ ("   Posted: " ++ format_date j.listedAt ++ "\n"), ?_⟩
  simp [search_jobs_entry, entry_job_id, h]

/-- Claim C10, witness: the all-fields-missing item still renders the URL line
ending in the bare view-URL prefix. -/
theorem url_line_always_w :
    ∃ pre, search_jobs_entry 1 emptyRawJob =
      pre ++ ("   URL: https://www.linkedin.com/jobs/view/" ++ "" ++ "\n\n") :=
  url_line_always 1 emptyRawJob rfl

end LinkedInMCP
